import Mathlib

/-!
Verification of the Walmart demand-forecasting core
(`src/frontend/streamlit_app.py`), embedded shallowly in Lean 4.

Decimals are modelled as exact rationals (`ℚ`); the pandas dataframe of
sales records becomes a list of `SalesRecord`; the globally scoped slider
values become an explicit `ParameterVector` argument.  The pandas `mean`
of an empty column is `NaN`, i.e. no numeric value, so `mean` returns
`Option ℚ` with `none` in that case.
-/

namespace WalmartForecast

/-- One row of the historical CSV (`df`): the columns used by the app. -/
structure SalesRecord where
  store_id : ℤ
  date : ℕ
  weekly_sales : ℚ
  holiday_flag : Bool
  temperature : ℚ
  fuel_price : ℚ
  cpi : ℚ
  unemployment : ℚ
deriving Repr, DecidableEq

/-- The sidebar inputs (`holiday_flag`, `temperature`, `fuel_price`,
`cpi`, `unemployment` in the script), gathered into one record. -/
structure ParameterVector where
  holiday_flag : Bool
  temperature : ℚ
  fuel_price : ℚ
  cpi : ℚ
  unemployment : ℚ
deriving Repr, DecidableEq

def COEF_HOLIDAY : ℚ := 6634.0369
def COEF_FUEL : ℚ := 11830.0
def COEF_CPI : ℚ := -9.8499
def COEF_UNEMP : ℚ := -418.9919
def TEMP_OPTIMAL : ℚ := 70.0
def TEMP_CURVATURE : ℚ := -196.8391

/-- `temp_effect(t) = TEMP_CURVATURE * (t - TEMP_OPTIMAL) ** 2`. -/
def temp_effect (t : ℚ) : ℚ :=
  TEMP_CURVATURE * (t - TEMP_OPTIMAL) ^ 2

/-- `base_prediction()`: `CONST + COEF_HOLIDAY * int(holiday_flag)
+ COEF_FUEL * fuel_price + COEF_CPI * cpi + COEF_UNEMP * unemployment`,
with `CONST` (the store baseline) and the sliders passed explicitly. -/
def base_prediction (CONST : ℚ) (p : ParameterVector) : ℚ :=
  CONST
    + COEF_HOLIDAY * (if p.holiday_flag then 1 else 0)
    + COEF_FUEL * p.fuel_price
    + COEF_CPI * p.cpi
    + COEF_UNEMP * p.unemployment

/-- `predicted_sales = base_prediction() + temp_effect(temperature)`. -/
def predicted_sales (CONST : ℚ) (p : ParameterVector) : ℚ :=
  base_prediction CONST p + temp_effect p.temperature

/-- Comparison of records by date, the key of
`store_df = df[df["Store"] == store_id].sort_values("Date")`. -/
def dateLE (a b : SalesRecord) : Prop := a.date ≤ b.date

instance : DecidableRel dateLE := fun a b => (inferInstance : Decidable (a.date ≤ b.date))

instance : IsTotal SalesRecord dateLE := ⟨fun a b => Nat.le_total a.date b.date⟩

instance : IsTrans SalesRecord dateLE := ⟨fun _ _ _ h1 h2 => Nat.le_trans h1 h2⟩

/-- `store_df = df[df["Store"] == store_id].sort_values("Date")`:
the selected store's rows, sorted by date ascending. -/
def store_df (df : List SalesRecord) (store_id : ℤ) : List SalesRecord :=
  List.insertionSort dateLE (df.filter (fun r => r.store_id == store_id))

/-- Pandas `Series.mean()`: the arithmetic mean, or `NaN` (no numeric
value, modelled as `none`) on an empty column. -/
def mean (xs : List ℚ) : Option ℚ :=
  if xs.isEmpty then none else some (xs.sum / xs.length)

/-- `avg_sales = store_df["Weekly_Sales"].mean()` — the store baseline. -/
def avg_sales (df : List SalesRecord) (store_id : ℤ) : Option ℚ :=
  mean ((store_df df store_id).map (fun r => r.weekly_sales))

/-- `recent = store_df.tail(n)`: the last `n` rows of the per-store
sorted history (the script fixes `n = 20`; the spec's `recentWindow`
takes it as a parameter). -/
def recentWindow (df : List SalesRecord) (store_id : ℤ) (n : ℕ) : List SalesRecord :=
  (store_df df store_id).drop ((store_df df store_id).length - n)

/-- The four numeric dimensions swept by the sensitivity section. -/
inductive Dimension
  | temperature
  | fuel_price
  | cpi
  | unemployment
deriving Repr, DecidableEq

/-- Replace one field of the parameter vector, all others fixed. -/
def setDim (p : ParameterVector) : Dimension → ℚ → ParameterVector
  | .temperature, x => { p with temperature := x }
  | .fuel_price, x => { p with fuel_price := x }
  | .cpi, x => { p with cpi := x }
  | .unemployment, x => { p with unemployment := x }

/-- The curve ordinate at one swept value, exactly as the script computes
it: `t_sales = base_prediction() + temp_effect(t_range)`,
`f_sales = predicted_sales + COEF_FUEL * (f_range - fuel_price)`,
`c_sales = predicted_sales + COEF_CPI * (c_range - cpi)`,
`u_sales = predicted_sales + COEF_UNEMP * (u_range - unemployment)`. -/
def curveValue (CONST : ℚ) (p : ParameterVector) : Dimension → ℚ → ℚ
  | .temperature, x => base_prediction CONST p + temp_effect x
  | .fuel_price, x => predicted_sales CONST p + COEF_FUEL * (x - p.fuel_price)
  | .cpi, x => predicted_sales CONST p + COEF_CPI * (x - p.cpi)
  | .unemployment, x => predicted_sales CONST p + COEF_UNEMP * (x - p.unemployment)

/-- The sensitivity curve: the swept values paired elementwise (numpy
broadcasting) with the curve ordinates, in sweep order. -/
def sensitivityCurve (CONST : ℚ) (p : ParameterVector) (d : Dimension)
    (range : List ℚ) : List (ℚ × ℚ) :=
  range.map (fun x => (x, curveValue CONST p d x))

/-- `delta = ((predicted_sales - avg_sales) / avg_sales) * 100`, with the
baseline passed explicitly. -/
def delta (CONST : ℚ) (p : ParameterVector) : ℚ :=
  ((predicted_sales CONST p - CONST) / CONST) * 100

/-- The Variant A formula as the spec writes it, for comparison with
`predicted_sales`. -/
def specFormula (CONST : ℚ) (p : ParameterVector) : ℚ :=
  CONST
    + COEF_HOLIDAY * (if p.holiday_flag then 1 else 0)
    + TEMP_CURVATURE * (p.temperature - TEMP_OPTIMAL) ^ 2
    + COEF_FUEL * p.fuel_price
    + COEF_CPI * p.cpi
    + COEF_UNEMP * p.unemployment

/-- The documented valid ranges of the numeric inputs (the UI slider
bounds): temperature ∈ [20,120], fuel_price ∈ [2,5], cpi ∈ [200,300],
unemployment ∈ [3,15]. -/
def inRangeParams (p : ParameterVector) : Prop :=
  20 ≤ p.temperature ∧ p.temperature ≤ 120
    ∧ 2 ≤ p.fuel_price ∧ p.fuel_price ≤ 5
    ∧ 200 ≤ p.cpi ∧ p.cpi ≤ 300
    ∧ 3 ≤ p.unemployment ∧ p.unemployment ≤ 15

instance (p : ParameterVector) : Decidable (inRangeParams p) := by
  unfold inRangeParams
  infer_instance

/-- C1: for every baseline and parameter vector, `predicted_sales` equals
baseline + COEF_HOLIDAY·holiday + TEMP_CURVATURE·(t − TEMP_OPTIMAL)² +
COEF_FUEL·fuel + COEF_CPI·cpi + COEF_UNEMP·unemployment, and in the
concrete Variant A scenario (baseline 20000, holiday, t = 70, fuel 3.5,
cpi 220, unemployment 7) it equals the spec's asserted decimal sum. -/
theorem predicted_sales_formula (b : ℚ) (p : ParameterVector) :
    predicted_sales b p =
        b + COEF_HOLIDAY * (if p.holiday_flag then 1 else 0)
          + TEMP_CURVATURE * (p.temperature - TEMP_OPTIMAL) ^ 2
          + COEF_FUEL * p.fuel_price + COEF_CPI * p.cpi
          + COEF_UNEMP * p.unemployment
      ∧ predicted_sales 20000 ⟨true, 70, 3.5, 220, 7⟩ =
          20000 + 6634.0369 + 0 + 11830.0 * 3.5 + (-9.8499) * 220
            + (-418.9919) * 7 := by
  constructor
  · simp only [predicted_sales, base_prediction, temp_effect]
    ring
  · norm_num [predicted_sales, base_prediction, temp_effect, COEF_HOLIDAY,
      COEF_FUEL, COEF_CPI, COEF_UNEMP, TEMP_OPTIMAL, TEMP_CURVATURE]

/-- C5: the temperature contribution is never positive, vanishes exactly
at t = 70, and is strictly below its value at 70 for every other t. -/
theorem temp_effect_max_at_optimal (t : ℚ) :
    temp_effect t ≤ 0
      ∧ (temp_effect t = 0 ↔ t = 70)
      ∧ (t ≠ 70 → temp_effect t < temp_effect 70) := by
  have hsq : (0:ℚ) ≤ (t - 70) ^ 2 := sq_nonneg _
  refine ⟨?_, ⟨?_, ?_⟩, ?_⟩
  · simp only [temp_effect, TEMP_CURVATURE, TEMP_OPTIMAL]
    nlinarith [hsq]
  · intro h
    simp only [temp_effect, TEMP_CURVATURE, TEMP_OPTIMAL] at h
    have h2 : (t - 70) ^ 2 = 0 := by linarith
    have h3 : t - 70 = 0 := by
      exact pow_eq_zero_iff (two_ne_zero) |>.mp h2
    linarith
  · intro h
    subst h
    norm_num [temp_effect, TEMP_CURVATURE, TEMP_OPTIMAL]
  · intro h
    have hne : t - 70 ≠ 0 := sub_ne_zero.mpr h
    have hpos : 0 < (t - 70) ^ 2 :=
      lt_of_le_of_ne hsq (Ne.symm (pow_ne_zero 2 hne))
    simp only [temp_effect, TEMP_CURVATURE, TEMP_OPTIMAL]
    nlinarith [hpos]

/-- Witness for C5 at the concrete temperature t = 71. -/
theorem temp_effect_max_at_optimal_witness :
    temp_effect 71 ≤ 0
      ∧ (temp_effect 71 = 0 ↔ (71:ℚ) = 70)
      ∧ temp_effect 71 < temp_effect 70 := by
  have h := temp_effect_max_at_optimal 71
  exact ⟨h.1, h.2.1, h.2.2 (by norm_num)⟩

/-- C6: toggling the holiday flag with everything else fixed changes the
prediction by exactly COEF_HOLIDAY = 6634.0369, in exact arithmetic. -/
theorem holiday_increment (b : ℚ) (p : ParameterVector) :
    predicted_sales b { p with holiday_flag := true }
        - predicted_sales b { p with holiday_flag := false } = COEF_HOLIDAY
      ∧ COEF_HOLIDAY = 6634.0369 := by
  constructor
  · simp only [predicted_sales, base_prediction, temp_effect, if_true,
      Bool.false_eq_true, if_false]
    ring
  · rfl

/-- C7: `predicted_sales` is total and performs no domain validation:
even on parameter vectors outside the documented slider ranges it returns
exactly the model formula, with no clamping and no failure. -/
theorem predict_no_validation (b : ℚ) (p : ParameterVector)
    (_h : ¬ inRangeParams p) :
    predicted_sales b p = specFormula b p := by
  simp only [predicted_sales, base_prediction, temp_effect, specFormula]
  ring

/-- Witness for C7 at a parameter vector far outside every slider range. -/
theorem predict_no_validation_witness :
    ¬ inRangeParams ⟨false, 500, 10, 400, 50⟩
      ∧ predicted_sales 0 ⟨false, 500, 10, 400, 50⟩
          = specFormula 0 ⟨false, 500, 10, 400, 50⟩ :=
  ⟨by decide, predict_no_validation 0 ⟨false, 500, 10, 400, 50⟩ (by decide)⟩

/-- C9: with all else fixed, the prediction is strictly increasing in
fuel_price and strictly decreasing in cpi and in unemployment. -/
theorem predicted_sales_monotone (b : ℚ) (p : ParameterVector) :
    (∀ f1 f2 : ℚ, f1 < f2 →
        predicted_sales b { p with fuel_price := f1 }
          < predicted_sales b { p with fuel_price := f2 })
      ∧ (∀ c1 c2 : ℚ, c1 < c2 →
          predicted_sales b { p with cpi := c2 }
            < predicted_sales b { p with cpi := c1 })
      ∧ (∀ u1 u2 : ℚ, u1 < u2 →
          predicted_sales b { p with unemployment := u2 }
            < predicted_sales b { p with unemployment := u1 }) := by
  refine ⟨?_, ?_, ?_⟩ <;> intro x1 x2 h <;>
    simp only [predicted_sales, base_prediction, temp_effect, COEF_FUEL,
      COEF_CPI, COEF_UNEMP] <;> linarith

/-- Witness for C9: concrete strict comparisons at the default operating
point, one per economic dimension. -/
theorem predicted_sales_monotone_witness :
    ((3:ℚ) < 4
        ∧ predicted_sales 20000
              { (⟨false, 70, 3.5, 220, 7⟩ : ParameterVector) with fuel_price := 3 }
            < predicted_sales 20000
              { (⟨false, 70, 3.5, 220, 7⟩ : ParameterVector) with fuel_price := 4 })
      ∧ ((220:ℚ) < 230
        ∧ predicted_sales 20000
              { (⟨false, 70, 3.5, 220, 7⟩ : ParameterVector) with cpi := 230 }
            < predicted_sales 20000
              { (⟨false, 70, 3.5, 220, 7⟩ : ParameterVector) with cpi := 220 })
      ∧ ((7:ℚ) < 8
        ∧ predicted_sales 20000
              { (⟨false, 70, 3.5, 220, 7⟩ : ParameterVector) with unemployment := 8 }
            < predicted_sales 20000
              { (⟨false, 70, 3.5, 220, 7⟩ : ParameterVector) with unemployment := 7 }) :=
  ⟨⟨by norm_num,
      (predicted_sales_monotone 20000 ⟨false, 70, 3.5, 220, 7⟩).1 3 4 (by norm_num)⟩,
    ⟨by norm_num,
      (predicted_sales_monotone 20000 ⟨false, 70, 3.5, 220, 7⟩).2.1 220 230 (by norm_num)⟩,
    ⟨by norm_num,
      (predicted_sales_monotone 20000 ⟨false, 70, 3.5, 220, 7⟩).2.2 7 8 (by norm_num)⟩⟩

/-- C10: `delta` is exactly ((predicted − baseline)/baseline)·100, and
under the precondition baseline ≠ 0 it genuinely is that quotient:
multiplying back by the baseline recovers (predicted − baseline)·100. -/
theorem delta_quotient (b : ℚ) (p : ParameterVector) (hb : b ≠ 0) :
    delta b p = (predicted_sales b p - b) / b * 100
      ∧ delta b p * b = (predicted_sales b p - b) * 100 := by
  refine ⟨rfl, ?_⟩
  unfold delta
  field_simp

/-- Witness for C10 at baseline 20000 and the default operating point. -/
theorem delta_quotient_witness :
    (20000:ℚ) ≠ 0
      ∧ (delta 20000 ⟨true, 70, 3.5, 220, 7⟩
            = (predicted_sales 20000 ⟨true, 70, 3.5, 220, 7⟩ - 20000) / 20000 * 100
          ∧ delta 20000 ⟨true, 70, 3.5, 220, 7⟩ * 20000
            = (predicted_sales 20000 ⟨true, 70, 3.5, 220, 7⟩ - 20000) * 100) :=
  ⟨by norm_num, delta_quotient 20000 ⟨true, 70, 3.5, 220, 7⟩ (by norm_num)⟩

/-- `mean` only depends on the multiset of values: permuting the list
changes neither emptiness, sum, nor length. -/
theorem mean_congr_perm {xs ys : List ℚ} (h : xs.Perm ys) : mean xs = mean ys := by
  unfold mean
  by_cases hx : xs = []
  · subst hx
    rw [h.symm.eq_nil]
  · have hy : ys ≠ [] := fun hy => hx ((hy ▸ h : xs.Perm []).eq_nil)
    rw [if_neg (by simpa using hx), if_neg (by simpa using hy),
      h.sum_eq, h.length_eq]

/-- A dataset whose store ids have a gap: stores 1 and 3 have records,
store 2 has none, yet 2 lies inside the `number_input` bounds
(`df["Store"].min()` to `df["Store"].max()`), so it is selectable. -/
def gapDf : List SalesRecord :=
  [⟨1, 0, 1500, false, 70, 3, 220, 7⟩,
   ⟨3, 1, 2500, true, 80, 4, 230, 8⟩]

/-- C2, evaluated at the failing input: selecting store 2 of `gapDf`
matches zero records, and line 70's `store_df["Weekly_Sales"].mean()` on
that empty selection is pandas NaN — embedded as `none` — so the app
obtains no numeric baseline yet raises nothing: it does not fail with
`EmptyHistoryError` as specified, and goes on to render NaN KPIs. -/
theorem avg_sales_empty_store_is_nan :
    gapDf.filter (fun r => r.store_id == 2) = []
      ∧ avg_sales gapDf 2 = none := by
  decide

/-- C4: for a store with at least one record, the baseline is exactly the
arithmetic mean of `weekly_sales` over the records whose `store_id`
matches — records of other stores contribute nothing. -/
theorem avg_sales_is_mean (df : List SalesRecord) (s : ℤ)
    (h : df.filter (fun r => r.store_id == s) ≠ []) :
    avg_sales df s =
      some (((df.filter (fun r => r.store_id == s)).map
              (fun r => r.weekly_sales)).sum
        / (df.filter (fun r => r.store_id == s)).length) := by
  unfold avg_sales store_df
  rw [mean_congr_perm ((List.perm_insertionSort dateLE _).map _)]
  unfold mean
  rw [if_neg (by simpa using h), List.length_map]

/-- A four-record synthetic dataset: store 5 has weekly sales 100, 200,
300; store 6 has one unrelated record. -/
def sampleDf : List SalesRecord :=
  [⟨6, 0, 999, false, 70, 3, 220, 7⟩,
   ⟨5, 1, 100, false, 70, 3, 220, 7⟩,
   ⟨5, 2, 200, true, 80, 4, 230, 8⟩,
   ⟨5, 3, 300, false, 60, 3, 210, 6⟩]

/-- Witness for C4: on `sampleDf`, store 5's baseline is exactly 200 and
the store-6 record contributes nothing. -/
theorem avg_sales_is_mean_witness :
    (sampleDf.filter (fun r => r.store_id == 5) ≠ [])
      ∧ avg_sales sampleDf 5 = some 200 := by
  refine ⟨by decide, ?_⟩
  rw [avg_sales_is_mean sampleDf 5 (by decide)]
  norm_num [sampleDf]

/-- C3: the sensitivity curve has exactly one point per swept value, in
sweep order, pairing each swept value with the full model prediction at
the parameter vector in which only the swept dimension was replaced. -/
theorem sensitivityCurve_pointwise (CONST : ℚ) (p : ParameterVector)
    (d : Dimension) (range : List ℚ) :
    (sensitivityCurve CONST p d range).length = range.length
      ∧ sensitivityCurve CONST p d range
          = range.map (fun x => (x, predicted_sales CONST (setDim p d x))) := by
  refine ⟨List.length_map _ _, ?_⟩
  unfold sensitivityCurve
  refine List.map_congr_left fun x _ => ?_
  cases d <;>
    simp [curveValue, setDim, predicted_sales, base_prediction, temp_effect] <;>
    ring

/-- C8: the recent window is the last `n` rows (all rows when fewer than
`n` exist) of the store's history sorted by date ascending; the window is
itself sorted by date ascending and is a contiguous suffix of that
per-store sequence, which is a permutation of the store's filtered
records. -/
theorem recentWindow_last_n (df : List SalesRecord) (s : ℤ) (n : ℕ) :
    recentWindow df s n = ((store_df df s).reverse.take n).reverse
      ∧ (recentWindow df s n).length = min n (store_df df s).length
      ∧ (store_df df s).Perm (df.filter (fun r => r.store_id == s))
      ∧ List.Sorted dateLE (store_df df s)
      ∧ List.Sorted dateLE (recentWindow df s n)
      ∧ List.IsSuffix (recentWindow df s n) (store_df df s) := by
  have hsorted : List.Sorted dateLE (store_df df s) :=
    List.sorted_insertionSort dateLE _
  refine ⟨?_, ?_, List.perm_insertionSort dateLE _, hsorted, ?_, ?_⟩
  · rw [show ((store_df df s).reverse.take n).reverse
          = (store_df df s).rtake n from (List.rtake_eq_reverse_take_reverse _ _).symm]
    rfl
  · unfold recentWindow
    rw [List.length_drop]
    omega
  · exact List.Pairwise.sublist (List.drop_sublist _ _) hsorted
  · exact List.drop_suffix _ _

end WalmartForecast
